import Mathlib

/-!
A shallow embedding of the package-repository synchronization subsystem of
the `clickhouse-repos-manager` service (`repos.py`, `packages.py`,
`release.py`, `context_helper.py`), together with theorems settling the
spec's claims about it.

Conventions of the embedding:
* filesystem paths are lists of components (`Path`);
* the byte-for-byte content of a directory tree is an abstract value of a
  type parameter (`Config` for the `configs/deb` tree, `Pool` for the
  published `deb` tree), so "equals byte-for-byte" becomes equality of
  those values;
* an invocation of an external command (reprepro, createrepo, mount, a
  download) is a function supplied as a parameter; it receives exactly the
  data the command line grants it access to and either returns the updated
  trees or an error value (a raised exception);
* Python `try/except/raise` becomes `Except`.
-/

namespace RepoManager

/-- A filesystem path, as a list of components. -/
abbrev Path := List String

/-- Python `s.split(sep, 1)[0]` for a one-character separator: the
characters before the first occurrence of `c` (the whole list when `c` does
not occur). -/
def takeUntilChar (c : Char) : List Char → List Char
  | [] => []
  | x :: xs => if x = c then [] else x :: takeUntilChar c xs

/-- Python `s.split(sep, 1)` for a one-character separator, when `sep`
occurs: the parts before and after the first occurrence; `none` when it
does not occur. -/
def splitOnce (c : Char) : List Char → Option (List Char × List Char)
  | [] => none
  | x :: xs =>
    if x = c then some ([], xs)
    else (splitOnce c xs).map (fun r => (x :: r.1, r.2))

/-- Python `s.endswith(sfx)`. -/
def strEndsWith (s sfx : String) : Bool :=
  sfx.toList.isSuffixOf s.toList

/-- `packages.Package`: one artifact file.  `fname` is `path.name` (the
filename without directories), `version` is the semantic version string. -/
structure Package where
  fname : String
  version : String
deriving DecidableEq, Repr

/-- A regular file: its byte size and an abstract identifier of its byte
content (`copy2` transfers both). -/
structure MFile where
  size : Nat
  content : Nat
deriving DecidableEq, Repr

/-- `repos.copy_if_not_exists(src, dst)` after the `dst.is_dir()` resolution
(`dst = dst / src.name`): `dst` is the destination slot for `src.name`
(`none` when no such file exists).  Returns whether `copy2` was executed and
the resulting destination file:

    if not dst.exists(): return copy2(src, dst)
    if src.stat().st_size == dst.stat().st_size: return dst
    return copy2(src, dst)
-/
def copy_if_not_exists (src : MFile) (dst : Option MFile) : Bool × MFile :=
  match dst with
  | none => (true, src)
  | some d =>
    if src.size = d.size then (false, d)
    else (true, src)

/-! ## The Debian repository (`repos.DebRepo`)

The filesystem pieces a `DebRepo` touches:

* `{configs_root}/configs/deb` — the reprepro configuration tree
  (`conf/distributions` plus the `db` directory), abstracted as one value of
  type `Config`;
* `{repo_root}/configs/archive/deb-<timestamp>.tar.gz` — the retained
  snapshots; the `archives` field holds the files matching
  `glob("deb-*.tar.gz")`, each entry carrying its name and the `Config` it
  archives.  `pathlib.Path.glob` returns them in an *unspecified* order, so
  each commit's listing order is supplied separately (`globOrder` below);
* `{repo_root}/deb` — the published pool/dists tree (`--outdir`), abstracted
  as one value of type `Pool`;
* `temps` — the number of live `mkdtemp` temporary directories.
-/

/-- The outcome of an external reprepro invocation: on success the updated
`--basedir` configs tree and `--outdir` pool; on failure the raised error,
with whatever the tool had already written to the pool by then. -/
inductive StepOut (Config Pool E : Type) where
  | ok (c : Config) (p : Pool)
  | err (e : E) (p : Pool)
deriving DecidableEq

/-- An external reprepro invocation (`runner(command)` in
`DebRepo.add_packages` / `process_additional_packages`).  Its arguments are
the `--basedir` path, the `--outdir` path, and the current contents of those
two trees — exactly what `reprepro_cmd` grants the tool access to. -/
abbrev RepStep (Config Pool E : Type) := Path → Path → Config → Pool → StepOut Config Pool E

/-- The on-disk state a `DebRepo` operates on. -/
structure DebFs (Config Pool : Type) where
  configsDeb : Config
  archives : List (String × Config)
  debTree : Pool
  temps : Nat
deriving DecidableEq

/-- `DebRepo.reprepro_config`: `self._configs_root / "configs" / "deb"`
(`_reprepro_config = Path("configs") / "deb"`). -/
def DebRepo.repreproConfig (configsRoot : Path) : Path :=
  configsRoot ++ ["configs", "deb"]

/-- `DebRepo.outdir_path`: `self._repo_root / "deb"`. -/
def DebRepo.outdirPath (root : Path) : Path :=
  root ++ ["deb"]

/-- Sequencing of the reprepro invocations inside the `with
self.local_configs()` block of `DebRepo.add_packages`: the `includedeb`
command followed by one `copy` command per additional codename; the first
raised error aborts the rest. -/
def DebRepo.runSteps {Config Pool E : Type} :
    List (RepStep Config Pool E) → RepStep Config Pool E
  | [] => fun _ _ c p => .ok c p
  | st :: rest => fun basedir outdir c p =>
    match st basedir outdir c p with
    | .err e p2 => .err e p2
    | .ok c2 p2 => DebRepo.runSteps rest basedir outdir c2 p2

/-- `DebRepo.local_configs` (repos.py:111-156) run around a body: the
`@contextmanager` protocol inlined.

1. `temp_dir = Path(mkdtemp())`; `self._configs_root = temp_dir`;
   `copytree(original_configs, configs_copy)` — the body therefore sees
   `--basedir` inside `tempDir` and the *copy* of `configsDeb`, while
   `--outdir` stays the live `{root}/deb` tree.
2. On an exception from the body: restore `_configs_root`,
   `rmtree(temp_dir)`, re-raise.  The original `configs/deb` tree and the
   archive directory were never handed to the tool, so they are unchanged;
   the pool keeps whatever the tool wrote before failing.
3. On success: archive the *original* configs as
   `deb-{now}.tar.gz`; `glob` the archive dir (the fresh tarball included);
   if the listing has ≥ 30 entries delete its leading `len - 29` entries;
   `rmtree(original)`; `copytree(configs_copy, original)`; restore
   `_configs_root`; `rmtree(temp_dir)`.

`globOrder` is the order in which `archive_dir.glob("deb-*.tar.gz")` lists
the matching files — `pathlib` leaves it unspecified, so it is a parameter,
applied to the set of matching files (the pre-existing archives plus the
fresh tarball).  A faithful instantiation returns a permutation of its
argument; theorems about the success path assume exactly that and nothing
about where the fresh tarball lands — in particular the sweep may delete
it. -/
def DebRepo.localConfigsRun {Config Pool E : Type} (root tempDir : Path) (now : String)
    (globOrder : List (String × Config) → List (String × Config))
    (body : RepStep Config Pool E) (s : DebFs Config Pool) :
    Except (E × DebFs Config Pool) (DebFs Config Pool) :=
  let s1 : DebFs Config Pool := { s with temps := s.temps + 1 }
  match body (DebRepo.repreproConfig tempDir) (DebRepo.outdirPath root)
      s1.configsDeb s1.debTree with
  | .err e p =>
    .error (e, { s1 with debTree := p, temps := s1.temps - 1 })
  | .ok c p =>
    let listing := globOrder (s.archives ++ [("deb-" ++ now ++ ".tar.gz", s.configsDeb)])
    let swept :=
      if 30 ≤ listing.length then listing.drop (listing.length - 29) else listing
    .ok { configsDeb := c, archives := swept, debTree := p, temps := s1.temps - 1 }

/-- `DebRepo.add_packages(version_type, *additional_version_types)`: the
whole call is the `includedeb` step and the per-codename `copy` steps run
inside `local_configs`. -/
def DebRepo.add_packages {Config Pool E : Type} (root tempDir : Path) (now : String)
    (globOrder : List (String × Config) → List (String × Config))
    (includeStep : RepStep Config Pool E) (copySteps : List (RepStep Config Pool E))
    (s : DebFs Config Pool) :
    Except (E × DebFs Config Pool) (DebFs Config Pool) :=
  DebRepo.localConfigsRun root tempDir now globOrder
    (DebRepo.runSteps (includeStep :: copySteps)) s

/-- The `name` half of the `name=version` pairs in
`DebRepo.process_additional_packages`: `pkg.path.name.split('_', 1)[0]`,
the filename up to its first underscore. -/
def Package.nameKey (p : Package) : String :=
  ⟨takeUntilChar '_' p.fname.toList⟩

/-- The deduplicated pair set of `DebRepo.process_additional_packages`:
`set(f"{pkg.path.name.split('_', 1)[0]}={pkg.version}" for pkg in
self.packages)` — a Python `set`, hence a `Finset`. -/
def packagesWithVersions (pkgs : List Package) : Finset String :=
  (pkgs.map (fun p => Package.nameKey p ++ "=" ++ p.version)).toFinset

/-- The `reprepro ... copy` command line built by
`DebRepo.process_additional_packages`, as structured data:
`{reprepro_cmd} copy {additional_version_type} {original_version_type}
{packages_with_versions}`. -/
structure CopyCmd where
  basedir : Path
  outdir : Path
  destCodename : String
  sourceCodename : String
  pairs : Finset String
deriving DecidableEq

/-- `DebRepo.process_additional_packages(original_version_type,
additional_version_type)`: the copy command it issues. -/
def DebRepo.process_additional_packages (configsRoot root : Path)
    (pkgs : List Package) (originalVersionType additionalVersionType : String) :
    CopyCmd :=
  { basedir := DebRepo.repreproConfig configsRoot
    outdir := DebRepo.outdirPath root
    destCodename := additionalVersionType
    sourceCodename := originalVersionType
    pairs := packagesWithVersions pkgs }

/-! ## Construction of the format repositories and of `Repos` -/

/-- `repos.RepoException` values relevant to construction. -/
inductive RepoErr where
  /-- `RepoException(f"all packages must end with '<sfx>': {offenders}")`
  raised by a format repository constructor. -/
  | formatMismatch (suffix : String) (offenders : List Package)
  /-- `RepoException(f"{repo_root} directory must exist")`. -/
  | missingRoot (root : Path)
  /-- `RepoException("Failed to create the repositories class") from e`
  raised by `Repos.__init__`. -/
  | wrapped (e : RepoErr)
deriving DecidableEq

/-- A constructor run: the directories it created (in creation order) and
the exception it raised, if any. -/
abbrev InitRun := List Path × Option RepoErr

/-- `DebRepo.__init__`: first the suffix validation (`.deb`), raised before
anything touches the filesystem; then `check_dirs`, which ensures
`{root}/configs/deb/conf` and `{root}/deb` exist (and writes the
`distributions` template if absent — a file write inside the first of those
directories). -/
def DebRepo.init (pkgs : List Package) (root : Path) : InitRun :=
  let bad := pkgs.filter (fun p => !strEndsWith p.fname ".deb")
  if bad.isEmpty then
    ([root ++ ["configs", "deb", "conf"], DebRepo.outdirPath root], none)
  else
    ([], some (.formatMismatch ".deb" bad))

/-- `RpmRepo.__init__`: suffix validation (`.rpm`) before
`check_dir_exist_or_create(self.outdir_path)` (`{root}/rpm`). -/
def RpmRepo.init (pkgs : List Package) (root : Path) : InitRun :=
  let bad := pkgs.filter (fun p => !strEndsWith p.fname ".rpm")
  if bad.isEmpty then
    ([root ++ ["rpm"]], none)
  else
    ([], some (.formatMismatch ".rpm" bad))

/-- `TgzRepo.__init__`: suffix validation (`.tgz` or `.tgz.sha512`) before
`check_dir_exist_or_create(self.outdir_path)` (`{root}/tgz`). -/
def TgzRepo.init (pkgs : List Package) (root : Path) : InitRun :=
  let bad := pkgs.filter
    (fun p => !(strEndsWith p.fname ".tgz" || strEndsWith p.fname ".tgz.sha512"))
  if bad.isEmpty then
    ([root ++ ["tgz"]], none)
  else
    ([], some (.formatMismatch ".tgz" bad))

/-- `Repos.__init__` after the root check and `_remount_root`: the three
format constructors run in order inside one `try`; the first exception
aborts the rest and is re-raised wrapped in
`RepoException("Failed to create the repositories class")`.  Directories
created by constructors that already succeeded stay created. -/
def Repos.initFormats (debPkgs rpmPkgs tgzPkgs : List Package) (root : Path) :
    InitRun :=
  match DebRepo.init debPkgs root with
  | (made, some e) => (made, some (.wrapped e))
  | (madeDeb, none) =>
    match RpmRepo.init rpmPkgs root with
    | (made, some e) => (madeDeb ++ made, some (.wrapped e))
    | (madeRpm, none) =>
      match TgzRepo.init tgzPkgs root with
      | (made, some e) => (madeDeb ++ madeRpm ++ made, some (.wrapped e))
      | (madeTgz, none) => (madeDeb ++ madeRpm ++ madeTgz, none)

/-! ## `Repos._remount_root` (repos.py:302-327) -/

/-- The shell commands `_remount_root` can run, in the order they appear in
the source. -/
inductive MountCmd where
  | findmnt
  | mountpoint
  | unmountCmd
  | mountCmd
deriving DecidableEq

/-- Exit status of each external command `_remount_root` may run:
`true` = exit 0, `false` = `subprocess.SubprocessError`. -/
structure MountEnv where
  findmntOk : Bool
  mountpointOk : Bool
  unmountOk : Bool
  mountOk : Bool
deriving DecidableEq

/-- `Repos._remount_root`, returning the trace of commands it ran and the
uncaught exception, if any:

    try: runner(f"findmnt -J -s {root}")
    except SubprocessError: log("... is not a mountpoint, do not re-mount"); return
    try: runner(f"mountpoint {root}")
    except SubprocessError: log("... is not mounted, just mount it")
                            runner(f"mount {root}"); return
    runner(f"umount {root}")
    runner(f"mount {root}")

Only the two probes are wrapped in `try`; `mount`/`umount` failures
propagate. -/
def Repos.remountRoot (env : MountEnv) : List MountCmd × Option Unit :=
  if !env.findmntOk then
    ([.findmnt], none)
  else if !env.mountpointOk then
    ([.findmnt, .mountpoint, .mountCmd], if env.mountOk then none else some ())
  else if !env.unmountOk then
    ([.findmnt, .mountpoint, .unmountCmd], some ())
  else
    ([.findmnt, .mountpoint, .unmountCmd, .mountCmd],
      if env.mountOk then none else some ())

/-- The mutating (non-probe) commands of a `_remount_root` trace. -/
def mutatingCmds (trace : List MountCmd) : List MountCmd :=
  trace.filter (fun c => c = .unmountCmd || c = .mountCmd)

/-! ## `packages.Package.download` (packages.py:32-47) -/

/-- Outcome of the external `download(url, path)` helper: on failure it may
leave a partial file at the destination. -/
inductive DlOut (C E : Type) where
  | ok (c : C)
  | err (e : E) (leftover : Option C)
deriving DecidableEq

/-- `Package.download(url_prefix, overwrite)`, on one destination slot
(`none` = the file does not exist).  Returns the re-raised exception or the
final destination content:

    if not overwrite and self.path.exists(): return      # skip, unchanged
    try: download(...)
    except: self.path.unlink(True); raise                # missing_ok=True
-/
def Package.download {C E : Type} (overwrite : Bool) (dest : Option C)
    (dl : Option C → DlOut C E) : Except (E × Option C) (Option C) :=
  if !overwrite && dest.isSome then
    .ok dest
  else
    match dl dest with
    | .ok c => .ok (some c)
    | .err e _ => .error (e, none)

/-! ## `Release` codename fan-out (release.py) -/

/-- `Release.additional_version_types` (release.py:304-308). -/
def Release.additional_version_types (versionType : String) : List String :=
  if versionType = "lts" then ["stable"] else []

/-- `self.version, self.version_type = version_tag[1:].split("-", 1)`
(release.py:52): `none` when the unpacking raises `ValueError` (no dash). -/
def Release.versionAndType (versionTag : String) : Option (String × String) :=
  match splitOnce '-' (versionTag.toList.drop 1) with
  | none => none
  | some (v, t) => some (⟨v⟩, ⟨t⟩)

/-- The `(version_type, additional_version_types)` pair `Release.__init__`
hands to `Repos(...)` (release.py:79-87).  The endpoint caller supplies only
the tag and the `binary` query arguments (`additional_binaries`); the
codenames are derived from the tag alone. -/
def Release.reposCodenames (versionTag : String)
    (additionalBinaries : List String) : Option (String × List String) :=
  let _ := additionalBinaries
  match Release.versionAndType versionTag with
  | none => none
  | some (_, t) => some (t, Release.additional_version_types t)

/-! ## Concurrent release workers (`Release._background_do`, release.py:118-149)

Each POST to `/release/<tag>` spawns one worker thread running
`_background_do`; every worker's `ContextHelper` aliases the single
module-level `context_helper.repo_lock` (`get_update_repo_lock`).  The
worker body is, in order: download the packages; `with
self.ch.update_repo_lock: self.repos.add_packages()`; upload assets and
finish.  An exception anywhere makes the worker fail (the `with` statement
still releases the lock).  We model two workers interleaved over the shared
lock as a transition system and prove mutual exclusion of the
`add_packages` phase.
-/

/-- The program counter of one worker thread, following the control flow of
`_background_do`. -/
inductive WPc where
  /-- before `self.packages.download(False, ...)` -/
  | start
  /-- download done, before entering `with self.ch.update_repo_lock` -/
  | beforeAcquire
  /-- inside `with self.ch.update_repo_lock`, i.e. inside the whole
  `self.repos.add_packages()` call (deb, rpm and tgz) -/
  | inAddPackages
  /-- `with` block exited (lock released), uploading assets -/
  | afterRelease
  /-- `mark_finished(SUCCESS)` reached -/
  | finished
  /-- an exception escaped `_background_do` -/
  | failed
deriving DecidableEq

/-- The shared state of the process: the one module-level
`context_helper.repo_lock` (holder, if any) and each worker's position. -/
structure Sys where
  lock : Option (Fin 2)
  pc : Fin 2 → WPc

/-- One atomic scheduling step of either worker. -/
inductive WStep : Sys → Sys → Prop where
  /-- `self.packages.download(...)` returns. -/
  | download (s : Sys) (i : Fin 2) (hpc : s.pc i = .start) :
      WStep s ⟨s.lock, Function.update s.pc i .beforeAcquire⟩
  /-- the download raises; the `except` clause re-raises. -/
  | downloadFail (s : Sys) (i : Fin 2) (hpc : s.pc i = .start) :
      WStep s ⟨s.lock, Function.update s.pc i .failed⟩
  /-- `with self.ch.update_repo_lock:` — `Lock.acquire` succeeds only when
  nobody holds the lock. -/
  | acquire (s : Sys) (i : Fin 2) (hpc : s.pc i = .beforeAcquire)
      (hl : s.lock = none) :
      WStep s ⟨some i, Function.update s.pc i .inAddPackages⟩
  /-- `self.repos.add_packages()` returns and the `with` block exits,
  releasing the lock. -/
  | release (s : Sys) (i : Fin 2) (hpc : s.pc i = .inAddPackages)
      (hl : s.lock = some i) :
      WStep s ⟨none, Function.update s.pc i .afterRelease⟩
  /-- `self.repos.add_packages()` raises; the `with` statement releases the
  lock and the worker's `except` clause re-raises. -/
  | releaseFail (s : Sys) (i : Fin 2) (hpc : s.pc i = .inAddPackages)
      (hl : s.lock = some i) :
      WStep s ⟨none, Function.update s.pc i .failed⟩
  /-- uploads and `mark_finished(SUCCESS)` complete. -/
  | finish (s : Sys) (i : Fin 2) (hpc : s.pc i = .afterRelease) :
      WStep s ⟨s.lock, Function.update s.pc i .finished⟩
  /-- an upload raises after the lock was already released. -/
  | uploadFail (s : Sys) (i : Fin 2) (hpc : s.pc i = .afterRelease) :
      WStep s ⟨s.lock, Function.update s.pc i .failed⟩

/-- The initial state: lock free, both workers about to download. -/
def Sys.init : Sys := ⟨none, fun _ => .start⟩

/-- States the two-worker system can reach. -/
def Sys.Reachable (s : Sys) : Prop :=
  Relation.ReflTransGen WStep Sys.init s

/-- The state after worker 0 downloads and acquires the lock: worker 0 is
inside `add_packages`, worker 1 has not started. -/
def Sys.probe : Sys :=
  ⟨some 0, Function.update
    (Function.update Sys.init.pc 0 WPc.beforeAcquire) 0 WPc.inAddPackages⟩

/-- The lock-discipline invariant: a worker is inside `add_packages` only
while it holds the process-wide lock. -/
def Sys.LockInv (s : Sys) : Prop :=
  ∀ i : Fin 2, s.pc i = .inAddPackages → s.lock = some i

theorem Sys.lockInv_init : Sys.LockInv Sys.init := by
  intro i h
  simp [Sys.init] at h

theorem Sys.lockInv_step {s t : Sys} (hs : Sys.LockInv s) (h : WStep s t) :
    Sys.LockInv t := by
  cases h with
  | download i hpc =>
    intro j hj
    have hj2 : Function.update s.pc i WPc.beforeAcquire j = WPc.inAddPackages := hj
    show s.lock = some j
    rcases eq_or_ne j i with hij | hij
    · subst hij; rw [Function.update_same] at hj2; cases hj2
    · rw [Function.update_noteq hij] at hj2; exact hs j hj2
  | downloadFail i hpc =>
    intro j hj
    have hj2 : Function.update s.pc i WPc.failed j = WPc.inAddPackages := hj
    show s.lock = some j
    rcases eq_or_ne j i with hij | hij
    · subst hij; rw [Function.update_same] at hj2; cases hj2
    · rw [Function.update_noteq hij] at hj2; exact hs j hj2
  | acquire i hpc hl =>
    intro j hj
    have hj2 : Function.update s.pc i WPc.inAddPackages j = WPc.inAddPackages := hj
    show some i = some j
    rcases eq_or_ne j i with hij | hij
    · subst hij; rfl
    · rw [Function.update_noteq hij] at hj2
      have hlj := hs j hj2
      rw [hl] at hlj
      cases hlj
  | release i hpc hl =>
    intro j hj
    have hj2 : Function.update s.pc i WPc.afterRelease j = WPc.inAddPackages := hj
    rcases eq_or_ne j i with hij | hij
    · subst hij; rw [Function.update_same] at hj2; cases hj2
    · rw [Function.update_noteq hij] at hj2
      have hlj := hs j hj2
      rw [hl] at hlj
      exact absurd (Option.some.inj hlj).symm hij
  | releaseFail i hpc hl =>
    intro j hj
    have hj2 : Function.update s.pc i WPc.failed j = WPc.inAddPackages := hj
    rcases eq_or_ne j i with hij | hij
    · subst hij; rw [Function.update_same] at hj2; cases hj2
    · rw [Function.update_noteq hij] at hj2
      have hlj := hs j hj2
      rw [hl] at hlj
      exact absurd (Option.some.inj hlj).symm hij
  | finish i hpc =>
    intro j hj
    have hj2 : Function.update s.pc i WPc.finished j = WPc.inAddPackages := hj
    show s.lock = some j
    rcases eq_or_ne j i with hij | hij
    · subst hij; rw [Function.update_same] at hj2; cases hj2
    · rw [Function.update_noteq hij] at hj2; exact hs j hj2
  | uploadFail i hpc =>
    intro j hj
    have hj2 : Function.update s.pc i WPc.failed j = WPc.inAddPackages := hj
    show s.lock = some j
    rcases eq_or_ne j i with hij | hij
    · subst hij; rw [Function.update_same] at hj2; cases hj2
    · rw [Function.update_noteq hij] at hj2; exact hs j hj2

theorem Sys.lockInv_reachable {s : Sys} (h : Sys.Reachable s) : Sys.LockInv s := by
  induction h with
  | refl => exact Sys.lockInv_init
  | tail _ hstep ih => exact Sys.lockInv_step ih hstep

/-! ## The claims -/

/-- C1: for every Debian `add_packages` call, if the external `includedeb`
or `copy` step raises any exception, the `configs/deb` tree after the call
equals byte-for-byte its state before the call, the temporary working copy
is discarded (no live temp dir remains), the archive directory is
untouched, and the same exception is re-raised to the caller. -/
theorem claim1_deb_rollback {Config Pool E : Type} (root tempDir : Path)
    (now : String)
    (globOrder : List (String × Config) → List (String × Config))
    (includeStep : RepStep Config Pool E)
    (copySteps : List (RepStep Config Pool E)) (s : DebFs Config Pool)
    (e : E) (p : Pool)
    (h : DebRepo.runSteps (includeStep :: copySteps)
      (DebRepo.repreproConfig tempDir) (DebRepo.outdirPath root)
      s.configsDeb s.debTree = .err e p) :
    ∃ fs, DebRepo.add_packages root tempDir now globOrder includeStep copySteps s =
        .error (e, fs) ∧
      fs.configsDeb = s.configsDeb ∧ fs.archives = s.archives ∧
      fs.temps = s.temps := by
  refine ⟨{ s with debTree := p }, ?_, rfl, rfl, rfl⟩
  unfold DebRepo.add_packages DebRepo.localConfigsRun
  dsimp only
  rw [h]
  simp

/-- Closed instance of `claim1_deb_rollback`: a failing `includedeb` step on
a concrete state. -/
theorem claim1_witness :
    ∃ fs, @DebRepo.add_packages Nat Nat Nat ["r"] ["t"] "T" id
        (fun _ _ _ p => .err 5 (p + 1)) [] ⟨10, [("deb-x.tar.gz", 9)], 20, 0⟩ =
        .error (5, fs) ∧
      fs.configsDeb = 10 ∧ fs.archives = [("deb-x.tar.gz", 9)] ∧
      fs.temps = 0 :=
  claim1_deb_rollback ["r"] ["t"] "T" id (fun _ _ _ p => .err 5 (p + 1)) []
    ⟨10, [("deb-x.tar.gz", 9)], 20, 0⟩ 5 21 (by decide)

/-- C8: throughout a Debian transaction the external tool sees `--basedir`
inside the temporary working copy and `--outdir` at the live `{root}/deb`
tree: (1) the call's outcome depends on the tool's behaviour only at
`basedir = tempDir/configs/deb`, `outdir = root/deb` — no other path is
handed to it, and the pool is never snapshotted; (2) on failure only the
configs subtree is restored: the pool mutations the tool already made are
kept in the final state. -/
theorem claim8_frame {Config Pool E : Type} (root tempDir : Path)
    (now : String)
    (globOrder : List (String × Config) → List (String × Config))
    (s : DebFs Config Pool) :
    (∀ body1 body2 : RepStep Config Pool E,
      (∀ c p, body1 (DebRepo.repreproConfig tempDir) (DebRepo.outdirPath root) c p
            = body2 (DebRepo.repreproConfig tempDir) (DebRepo.outdirPath root) c p) →
      DebRepo.localConfigsRun root tempDir now globOrder body1 s =
        DebRepo.localConfigsRun root tempDir now globOrder body2 s) ∧
    (∀ (body : RepStep Config Pool E) (e : E) (p : Pool),
      body (DebRepo.repreproConfig tempDir) (DebRepo.outdirPath root)
          s.configsDeb s.debTree = .err e p →
      DebRepo.localConfigsRun root tempDir now globOrder body s =
        .error (e, { s with debTree := p })) := by
  constructor
  · intro body1 body2 hagree
    unfold DebRepo.localConfigsRun
    dsimp only
    rw [hagree]
  · intro body e p h
    unfold DebRepo.localConfigsRun
    dsimp only
    rw [h]
    simp

/-- Closed instance of `claim8_frame`: two bodies agreeing on the
transaction's paths give identical runs, and a failing body's pool
mutation survives in the error state. -/
theorem claim8_witness :
    @DebRepo.localConfigsRun Nat Nat Nat ["r"] ["t"] "T" id
        (fun _ _ c p => .ok c p) ⟨1, [], 2, 0⟩ =
      @DebRepo.localConfigsRun Nat Nat Nat ["r"] ["t"] "T" id
        (fun b o c p =>
          if b = DebRepo.repreproConfig ["t"] ∧ o = DebRepo.outdirPath ["r"]
          then .ok c p else .err 0 p)
        ⟨1, [], 2, 0⟩ ∧
    @DebRepo.localConfigsRun Nat Nat Nat ["r"] ["t"] "T" id
        (fun _ _ _ p => .err 7 (p + 3)) ⟨1, [], 2, 0⟩ =
      .error (7, { configsDeb := 1, archives := [], debTree := 5, temps := 0 }) :=
  ⟨(claim8_frame ["r"] ["t"] "T" id ⟨1, [], 2, 0⟩).1 _ _ (by intro c p; simp),
   (claim8_frame ["r"] ["t"] "T" id ⟨1, [], 2, 0⟩).2 (fun _ _ _ p => .err 7 (p + 3))
     7 5 (by decide)⟩

/-- C2, counterexample: the claim says the retention sweep runs before the
new tarball is added and leaves exactly 30 archives after commit once the
cap is reached.  In the code the tarball is created first and
`config_archives[: len(config_archives) - 29]` then deletes the leading
entries of an *unsorted* glob listing down to 29: with 29 pre-existing
archives and a successful run, 29 — not 30 — remain (first conjunct); and
since the listing order is unspecified, a glob order that lists the fresh
tarball first makes the sweep delete the new tarball itself (second
conjunct), so not even "one new archive is added" survives at the cap. -/
theorem claim2_counterexample :
    ((@DebRepo.localConfigsRun Nat Nat Nat ["r"] ["t"] "T" id
        (fun _ _ c p => .ok c p)
        ⟨0, (List.range 29).map (fun i => ("a", i)), 0, 0⟩).toOption.map
      (fun fs => fs.archives.length)) = some 29 ∧
    ((@DebRepo.localConfigsRun Nat Nat Nat ["r"] ["t"] "T" List.reverse
        (fun _ _ c p => .ok c p)
        ⟨0, (List.range 29).map (fun i => ("a", i)), 0, 0⟩).toOption.map
      (fun fs => fs.archives.contains ("deb-T.tar.gz", 0))) = some false := by
  decide

/-- C2, amended: a successful Debian `add_packages` commit first archives
the pre-transaction configs tree as one new timestamped gzip tarball; the
retention sweep then globs the archive directory — a listing, in
unspecified order, that already includes the new tarball — and, when its
count is at least 30, deletes the leading entries of that listing until
exactly 29 remain; the deleted entries may include the new tarball itself.
Hence the archive count increases by exactly one while below the cap,
exactly 29 remain after commit once the cap is reached, every surviving
archive comes from the globbed listing, and below the cap the surviving
archives are exactly the old ones plus the new tarball. -/
theorem claim2_amended_archival {Config Pool E : Type} (root tempDir : Path)
    (now : String)
    (globOrder : List (String × Config) → List (String × Config))
    (body : RepStep Config Pool E) (s : DebFs Config Pool)
    (c : Config) (p : Pool)
    (h : body (DebRepo.repreproConfig tempDir) (DebRepo.outdirPath root)
      s.configsDeb s.debTree = .ok c p)
    (hglob : (globOrder
        (s.archives ++ [("deb-" ++ now ++ ".tar.gz", s.configsDeb)])).Perm
      (s.archives ++ [("deb-" ++ now ++ ".tar.gz", s.configsDeb)])) :
    ∃ fs, DebRepo.localConfigsRun root tempDir now globOrder body s = .ok fs ∧
      fs.archives.length =
        (if 30 ≤ s.archives.length + 1 then 29 else s.archives.length + 1) ∧
      (∀ a ∈ fs.archives,
        a ∈ s.archives ++ [("deb-" ++ now ++ ".tar.gz", s.configsDeb)]) ∧
      (s.archives.length + 1 < 30 →
        fs.archives.Perm
          (s.archives ++ [("deb-" ++ now ++ ".tar.gz", s.configsDeb)])) := by
  have hlen : (globOrder
      (s.archives ++ [("deb-" ++ now ++ ".tar.gz", s.configsDeb)])).length =
      s.archives.length + 1 := by
    rw [hglob.length_eq, List.length_append, List.length_singleton]
  have hrun : DebRepo.localConfigsRun root tempDir now globOrder body s = .ok
      { configsDeb := c
        archives :=
          if 30 ≤ (globOrder
              (s.archives ++ [("deb-" ++ now ++ ".tar.gz", s.configsDeb)])).length
          then (globOrder
              (s.archives ++ [("deb-" ++ now ++ ".tar.gz", s.configsDeb)])).drop
            ((globOrder
              (s.archives ++ [("deb-" ++ now ++ ".tar.gz", s.configsDeb)])).length - 29)
          else globOrder
            (s.archives ++ [("deb-" ++ now ++ ".tar.gz", s.configsDeb)])
        debTree := p
        temps := s.temps } := by
    unfold DebRepo.localConfigsRun
    dsimp only
    rw [h]
    simp
  refine ⟨_, hrun, ?_, ?_, ?_⟩
  · dsimp only
    rw [hlen]
    split_ifs with hc
    · rw [List.length_drop, hlen]
      omega
    · exact hlen
  · dsimp only
    intro a ha
    by_cases hc : 30 ≤ (globOrder
        (s.archives ++ [("deb-" ++ now ++ ".tar.gz", s.configsDeb)])).length
    · rw [if_pos hc] at ha
      exact hglob.mem_iff.mp (List.mem_of_mem_drop ha)
    · rw [if_neg hc] at ha
      exact hglob.mem_iff.mp ha
  · dsimp only
    intro hlt
    rw [if_neg (by rw [hlen]; omega)]
    exact hglob

/-- Closed instance of `claim2_amended_archival`: one pre-existing archive,
a reversed glob listing; below the cap the surviving archives are exactly
the old archive plus the new tarball (holding the pre-transaction configs
value 41). -/
theorem claim2_witness :
    ∃ fs, @DebRepo.localConfigsRun Nat Nat Nat ["r"] ["t"] "T" List.reverse
        (fun _ _ c p => .ok (c + 1) p) ⟨41, [("deb-old.tar.gz", 40)], 7, 0⟩ =
        .ok fs ∧
      fs.archives.length = (if 30 ≤ 1 + 1 then 29 else 1 + 1) ∧
      (∀ a ∈ fs.archives,
        a ∈ [("deb-old.tar.gz", 40), ("deb-T.tar.gz", 41)]) ∧
      (1 + 1 < 30 →
        fs.archives.Perm [("deb-old.tar.gz", 40), ("deb-T.tar.gz", 41)]) :=
  claim2_amended_archival ["r"] ["t"] "T" List.reverse
    (fun _ _ c p => .ok (c + 1) p) ⟨41, [("deb-old.tar.gz", 40)], 7, 0⟩ 42 7
    (by decide) (List.reverse_perm _)

/-- C3: constructing a format repository with any package whose filename
suffix does not match the target format (`.deb` / `.rpm` /
`.tgz`/`.tgz.sha512`) raises a format-mismatch `RepoException` listing the
offending files, before any filesystem mutation by that constructor (no
directories created); and such a failure makes the whole `Repos`
construction raise (wrapped), so no repository object is built. -/
theorem claim3_format_mismatch (root : Path) (debPkgs rpmPkgs tgzPkgs : List Package) :
    (debPkgs.filter (fun p => !strEndsWith p.fname ".deb") ≠ [] →
      DebRepo.init debPkgs root =
        ([], some (.formatMismatch ".deb"
          (debPkgs.filter (fun p => !strEndsWith p.fname ".deb"))))) ∧
    (rpmPkgs.filter (fun p => !strEndsWith p.fname ".rpm") ≠ [] →
      RpmRepo.init rpmPkgs root =
        ([], some (.formatMismatch ".rpm"
          (rpmPkgs.filter (fun p => !strEndsWith p.fname ".rpm"))))) ∧
    (tgzPkgs.filter
        (fun p => !(strEndsWith p.fname ".tgz" || strEndsWith p.fname ".tgz.sha512")) ≠ [] →
      TgzRepo.init tgzPkgs root =
        ([], some (.formatMismatch ".tgz"
          (tgzPkgs.filter
            (fun p => !(strEndsWith p.fname ".tgz" || strEndsWith p.fname ".tgz.sha512")))))) ∧
    ((debPkgs.filter (fun p => !strEndsWith p.fname ".deb") ≠ [] ∨
      rpmPkgs.filter (fun p => !strEndsWith p.fname ".rpm") ≠ [] ∨
      tgzPkgs.filter
        (fun p => !(strEndsWith p.fname ".tgz" || strEndsWith p.fname ".tgz.sha512")) ≠ []) →
      (Repos.initFormats debPkgs rpmPkgs tgzPkgs root).2.isSome = true) := by
  refine ⟨?_, ?_, ?_, ?_⟩
  · intro hbad
    rw [DebRepo.init, if_neg (by simpa [List.isEmpty_iff] using hbad)]
  · intro hbad
    rw [RpmRepo.init, if_neg (by simpa [List.isEmpty_iff] using hbad)]
  · intro hbad
    rw [TgzRepo.init, if_neg (by simpa [List.isEmpty_iff] using hbad)]
  · intro hbad
    by_cases hd : debPkgs.filter (fun p => !strEndsWith p.fname ".deb") = []
    · have hdeb : DebRepo.init debPkgs root =
          ([root ++ ["configs", "deb", "conf"], DebRepo.outdirPath root], none) := by
        rw [DebRepo.init, if_pos (by simp [List.isEmpty_iff, hd])]
      by_cases hr : rpmPkgs.filter (fun p => !strEndsWith p.fname ".rpm") = []
      · have hrpm : RpmRepo.init rpmPkgs root = ([root ++ ["rpm"]], none) := by
          rw [RpmRepo.init, if_pos (by simp [List.isEmpty_iff, hr])]
        have ht : tgzPkgs.filter
            (fun p => !(strEndsWith p.fname ".tgz" ||
              strEndsWith p.fname ".tgz.sha512")) ≠ [] := by
          rcases hbad with hbad | hbad | hbad
          · exact absurd hd hbad
          · exact absurd hr hbad
          · exact hbad
        have htgz : TgzRepo.init tgzPkgs root =
            ([], some (.formatMismatch ".tgz" (tgzPkgs.filter
              (fun p => !(strEndsWith p.fname ".tgz" ||
                strEndsWith p.fname ".tgz.sha512"))))) := by
          rw [TgzRepo.init, if_neg (by simpa [List.isEmpty_iff] using ht)]
        unfold Repos.initFormats
        rw [hdeb, hrpm, htgz]
        rfl
      · have hrpm : RpmRepo.init rpmPkgs root =
            ([], some (.formatMismatch ".rpm"
              (rpmPkgs.filter (fun p => !strEndsWith p.fname ".rpm")))) := by
          rw [RpmRepo.init, if_neg (by simpa [List.isEmpty_iff] using hr)]
        unfold Repos.initFormats
        rw [hdeb, hrpm]
        rfl
    · have hdeb : DebRepo.init debPkgs root =
          ([], some (.formatMismatch ".deb"
            (debPkgs.filter (fun p => !strEndsWith p.fname ".deb")))) := by
        rw [DebRepo.init, if_neg (by simpa [List.isEmpty_iff] using hd)]
      unfold Repos.initFormats
      rw [hdeb]
      rfl

/-- Closed instance of `claim3_format_mismatch`: a stray `.deb` file among
the RPM packages aborts `RpmRepo` construction before any directory is
created, and the `Repos` build fails. -/
theorem claim3_witness :
    RpmRepo.init [⟨"clickhouse-client-22.8.2.11.x86_64.rpm", "22.8.2.11"⟩,
        ⟨"oops_22.8.2.11_amd64.deb", "22.8.2.11"⟩] ["r"] =
      ([], some (.formatMismatch ".rpm" [⟨"oops_22.8.2.11_amd64.deb", "22.8.2.11"⟩])) ∧
    (Repos.initFormats [] [⟨"clickhouse-client-22.8.2.11.x86_64.rpm", "22.8.2.11"⟩,
        ⟨"oops_22.8.2.11_amd64.deb", "22.8.2.11"⟩] [] ["r"]).2.isSome = true :=
  ⟨((claim3_format_mismatch ["r"] []
      [⟨"clickhouse-client-22.8.2.11.x86_64.rpm", "22.8.2.11"⟩,
        ⟨"oops_22.8.2.11_amd64.deb", "22.8.2.11"⟩] []).2.1 (by decide)).trans
    (by decide),
   (claim3_format_mismatch ["r"] []
      [⟨"clickhouse-client-22.8.2.11.x86_64.rpm", "22.8.2.11"⟩,
        ⟨"oops_22.8.2.11_amd64.deb", "22.8.2.11"⟩] []).2.2.2
    (Or.inr (Or.inl (by decide)))⟩

/-- C4: the RPM/Tarball copy step is idempotent on size: a same-named
destination file with an identical byte size means no byte-copy and an
unchanged destination; a differing size, or a missing destination, means
the source is (re-)copied; and a second copy of the same source is always
a no-op. -/
theorem claim4_idempotent_copy (src d : MFile) :
    (d.size = src.size → copy_if_not_exists src (some d) = (false, d)) ∧
    (d.size ≠ src.size → copy_if_not_exists src (some d) = (true, src)) ∧
    copy_if_not_exists src none = (true, src) ∧
    (∀ dst : Option MFile,
      copy_if_not_exists src (some (copy_if_not_exists src dst).2) =
        (false, (copy_if_not_exists src dst).2)) := by
  refine ⟨?_, ?_, rfl, ?_⟩
  · intro hsz
    simp [copy_if_not_exists, hsz]
  · intro hsz
    simp only [copy_if_not_exists]
    rw [if_neg (Ne.symm hsz)]
  · intro dst
    match dst with
    | none => simp [copy_if_not_exists]
    | some d2 =>
      by_cases hsz : src.size = d2.size
      · simp [copy_if_not_exists, hsz]
      · simp [copy_if_not_exists, hsz]

/-- Closed instance of `claim4_idempotent_copy`: a same-sized destination
is left alone, a differently-sized one is re-copied. -/
theorem claim4_witness :
    copy_if_not_exists ⟨128, 1⟩ (some ⟨128, 2⟩) = (false, ⟨128, 2⟩) ∧
    copy_if_not_exists ⟨128, 1⟩ (some ⟨64, 2⟩) = (true, ⟨128, 1⟩) :=
  ⟨(claim4_idempotent_copy ⟨128, 1⟩ ⟨128, 2⟩).1 rfl,
   (claim4_idempotent_copy ⟨128, 1⟩ ⟨64, 2⟩).2.1 (by decide)⟩

/-- C5: each additional codename is propagated via the external tool's
`copy` operation with the additional codename as destination and the
primary codename as source, and the command carries the deduplicated set of
`name=version` pairs where `name` is the package *filename* up to its first
underscore — so duplicate names across architectures yield a single pair
(the pairs form a set). -/
theorem claim5_copy_fanout (configsRoot root : Path) (pkgs : List Package)
    (originalVersionType additionalVersionType : String) :
    (DebRepo.process_additional_packages configsRoot root pkgs
        originalVersionType additionalVersionType).destCodename =
      additionalVersionType ∧
    (DebRepo.process_additional_packages configsRoot root pkgs
        originalVersionType additionalVersionType).sourceCodename =
      originalVersionType ∧
    ∀ s : String,
      s ∈ (DebRepo.process_additional_packages configsRoot root pkgs
        originalVersionType additionalVersionType).pairs ↔
      ∃ pkg ∈ pkgs, Package.nameKey pkg ++ "=" ++ pkg.version = s := by
  refine ⟨rfl, rfl, ?_⟩
  intro s
  simp [DebRepo.process_additional_packages, packagesWithVersions]

/-- Closed instance of `claim5_copy_fanout`: primary `stable`, extra `lts`,
and the same package name across two architectures contributing one pair. -/
theorem claim5_witness :
    (DebRepo.process_additional_packages ["t"] ["r"]
        [⟨"clickhouse-client_22.8.2.11_amd64.deb", "22.8.2.11"⟩,
         ⟨"clickhouse-client_22.8.2.11_arm64.deb", "22.8.2.11"⟩]
        "stable" "lts").destCodename = "lts" ∧
    (DebRepo.process_additional_packages ["t"] ["r"]
        [⟨"clickhouse-client_22.8.2.11_amd64.deb", "22.8.2.11"⟩,
         ⟨"clickhouse-client_22.8.2.11_arm64.deb", "22.8.2.11"⟩]
        "stable" "lts").sourceCodename = "stable" ∧
    "clickhouse-client=22.8.2.11" ∈ (DebRepo.process_additional_packages ["t"] ["r"]
        [⟨"clickhouse-client_22.8.2.11_amd64.deb", "22.8.2.11"⟩,
         ⟨"clickhouse-client_22.8.2.11_arm64.deb", "22.8.2.11"⟩]
        "stable" "lts").pairs ∧
    (DebRepo.process_additional_packages ["t"] ["r"]
        [⟨"clickhouse-client_22.8.2.11_amd64.deb", "22.8.2.11"⟩,
         ⟨"clickhouse-client_22.8.2.11_arm64.deb", "22.8.2.11"⟩]
        "stable" "lts").pairs.card = 1 :=
  ⟨(claim5_copy_fanout ["t"] ["r"] _ "stable" "lts").1,
   (claim5_copy_fanout ["t"] ["r"] _ "stable" "lts").2.1,
   ((claim5_copy_fanout ["t"] ["r"] _ "stable" "lts").2.2 _).mpr
     ⟨⟨"clickhouse-client_22.8.2.11_amd64.deb", "22.8.2.11"⟩, by decide, by decide⟩,
   by decide⟩

/-- C6, counterexample: the claim offers only two behaviours — a failed "is
mount point" probe skips the remount silently without error, and a detected
mount point is unmounted then remounted.  The code has a third branch: when
`findmnt -J -s` succeeds but the `mountpoint` probe fails, it runs `mount`
alone (no unmount, so not a silent skip and not an unmount+remount), and a
failure of that `mount` command propagates as an error. -/
theorem claim6_counterexample :
    Repos.remountRoot ⟨true, false, true, true⟩ =
      ([.findmnt, .mountpoint, .mountCmd], none) ∧
    mutatingCmds (Repos.remountRoot ⟨true, false, true, true⟩).1 = [.mountCmd] ∧
    (Repos.remountRoot ⟨true, false, true, false⟩).2 = some () := by decide

/-- C6, amended: `_remount_root` runs two probes.  A failed `findmnt -J -s`
probe is treated as "not a mount point": no mount or unmount command runs
and no error is raised.  If `findmnt` succeeds but the `mountpoint` probe
fails, the root is mounted (a single `mount`, no unmount) and a failure of
that `mount` is fatal.  If both probes succeed, the root is unmounted and
remounted before any other work, and a failure of either command is fatal
and propagates. -/
theorem claim6_amended_remount (env : MountEnv) :
    (env.findmntOk = false → Repos.remountRoot env = ([.findmnt], none)) ∧
    (env.findmntOk = true → env.mountpointOk = false →
      (Repos.remountRoot env).1 = [.findmnt, .mountpoint, .mountCmd] ∧
      ((Repos.remountRoot env).2 = none ↔ env.mountOk = true)) ∧
    (env.findmntOk = true → env.mountpointOk = true → env.unmountOk = false →
      Repos.remountRoot env = ([.findmnt, .mountpoint, .unmountCmd], some ())) ∧
    (env.findmntOk = true → env.mountpointOk = true → env.unmountOk = true →
      (Repos.remountRoot env).1 =
        [.findmnt, .mountpoint, .unmountCmd, .mountCmd] ∧
      ((Repos.remountRoot env).2 = none ↔ env.mountOk = true)) := by
  rcases env with ⟨f, m, u, k⟩
  cases f <;> cases m <;> cases u <;> cases k <;>
    simp [Repos.remountRoot]

/-- Closed instance of `claim6_amended_remount`: with every command
succeeding the root is unmounted and remounted without error. -/
theorem claim6_witness :
    (Repos.remountRoot ⟨true, true, true, true⟩).1 =
      [.findmnt, .mountpoint, .unmountCmd, .mountCmd] ∧
    ((Repos.remountRoot ⟨true, true, true, true⟩).2 = none ↔ true = true) :=
  (claim6_amended_remount ⟨true, true, true, true⟩).2.2.2 rfl rfl rfl

/-- C7: in every reachable state of two concurrent release workers sharing
the process-wide `repo_lock`, a worker is inside the `add_packages` call
(all three formats) only while it holds the lock, and no two distinct
workers are inside `add_packages` at the same time. -/
theorem claim7_mutual_exclusion (s : Sys) (h : Sys.Reachable s) :
    (∀ i : Fin 2, s.pc i = .inAddPackages → s.lock = some i) ∧
    (∀ i j : Fin 2, i ≠ j →
      ¬(s.pc i = .inAddPackages ∧ s.pc j = .inAddPackages)) := by
  have hinv := Sys.lockInv_reachable h
  refine ⟨hinv, ?_⟩
  rintro i j hij ⟨hi, hj⟩
  have h1 := hinv i hi
  have h2 := hinv j hj
  rw [h1] at h2
  exact hij (Option.some.inj h2)

/-- Closed instance of `claim7_mutual_exclusion` at a reachable state:
worker 0 downloaded and acquired the lock; worker 1 is not inside
`add_packages` as well. -/
theorem claim7_witness :
    ¬(Sys.probe.pc 0 = .inAddPackages ∧ Sys.probe.pc 1 = .inAddPackages) :=
  (claim7_mutual_exclusion Sys.probe
    (Relation.ReflTransGen.tail
      (Relation.ReflTransGen.tail Relation.ReflTransGen.refl
        (WStep.download Sys.init 0 rfl))
      (WStep.acquire
        ⟨Sys.init.lock, Function.update Sys.init.pc 0 WPc.beforeAcquire⟩ 0
        (Function.update_same 0 WPc.beforeAcquire Sys.init.pc) rfl))).2
    0 1 (by decide)

/-- C9: if the external download of a package's artifact raises, the
destination file is removed (tolerating a partial or absent file) before
the exception is re-raised — no partial artifact remains; and if the
destination already exists and `overwrite` is false, no download is
attempted (the result does not depend on the downloader at all) and the
file is left unchanged. -/
theorem claim9_download_cleanup {C E : Type} (dl : Option C → DlOut C E) :
    (∀ (dest : Option C) (e : E) (leftover : Option C),
      dl dest = .err e leftover →
      Package.download true dest dl = .error (e, none)) ∧
    (∀ (e : E) (leftover : Option C),
      dl none = .err e leftover →
      Package.download false none dl = .error (e, none)) ∧
    (∀ c : C, Package.download false (some c) dl = .ok (some c)) ∧
    (∀ (dl2 : Option C → DlOut C E) (c : C),
      Package.download false (some c) dl =
        Package.download false (some c) dl2) := by
  refine ⟨?_, ?_, ?_, ?_⟩
  · intro dest e leftover h
    simp [Package.download, h]
  · intro e leftover h
    simp [Package.download, h]
  · intro c
    simp [Package.download]
  · intro dl2 c
    simp [Package.download]

/-- Closed instance of `claim9_download_cleanup`: a failing download that
left half a file behind ends with no file and the error re-raised; an
existing file with `overwrite=False` is kept. -/
theorem claim9_witness :
    @Package.download Nat Nat true (some 7) (fun _ => .err 3 (some 99)) =
      .error (3, none) ∧
    @Package.download Nat Nat false (some 7) (fun _ => .err 3 (some 99)) =
      .ok (some 7) :=
  ⟨(claim9_download_cleanup (fun _ => .err 3 (some 99))).1 (some 7) 3 (some 99) rfl,
   (claim9_download_cleanup (fun _ => .err 3 (some 99))).2.2.1 7⟩

/-- C10: the additional codenames handed to the repositories are exactly
`["stable"]` when the tag's version type is `"lts"` and empty for every
other version type, and the publish-endpoint caller cannot supply extra
codenames: the pair passed to `Repos` is independent of the caller-supplied
`binary` arguments. -/
theorem claim10_codenames (versionTag : String) (binaries : List String)
    (v t : String) (h : Release.versionAndType versionTag = some (v, t)) :
    Release.reposCodenames versionTag binaries =
      some (t, if t = "lts" then ["stable"] else []) ∧
    Release.reposCodenames versionTag binaries =
      Release.reposCodenames versionTag [] := by
  constructor
  · simp [Release.reposCodenames, h, Release.additional_version_types]
  · simp [Release.reposCodenames]

/-- Closed instance of `claim10_codenames`: the lts tag
`v22.8.2.11-lts` with caller-supplied binaries yields `["stable"]`. -/
theorem claim10_witness :
    Release.reposCodenames "v22.8.2.11-lts" ["aarch64"] =
      some ("lts", if "lts" = "lts" then ["stable"] else []) ∧
    Release.reposCodenames "v22.8.2.11-lts" ["aarch64"] =
      Release.reposCodenames "v22.8.2.11-lts" [] :=
  claim10_codenames "v22.8.2.11-lts" ["aarch64"] "22.8.2.11" "lts" (by decide)

end RepoManager
